import Mathlib

/-!
Shallow embedding of `src/chimerox.py` (the Chimerox abstract video
generator).  Python floats are modelled as exact rationals.  The external
libraries the script calls are modelled as parameters of a `Model`
structure:

* Python's `random` module (a Mersenne-Twister stream) is abstracted as a
  function `u : ℤ → ℕ → ℚ` giving, for every seed value, the sequence of
  `random.random()` draws made after `random.seed` with that value, with
  the contract that each draw lies in `[0, 1)`.  `random.uniform(a, b)`
  is `a + (b - a) * random.random()`, exactly as in CPython.
* `math.sin`, `math.cos`, `math.sqrt`, `math.atan2` and `math.pi` are
  abstract functions/constants, with `sin 0 = 0` (exact in IEEE floats)
  the only fact the proofs use.
* `cv2.circle`, `cv2.line` and `cv2.remap` are abstract deterministic
  pixel-buffer transforms (they mutate pixels of the buffer in place and
  never change its shape); `cv2.addWeighted` and `colorsys.hsv_to_rgb`
  have simple documented semantics and are embedded concretely.

Pixels are 8-bit (`Fin 256`) triples, as in the `np.uint8` canvases of the
source.
-/

namespace Chimerox

/-- Python `int(x)` applied to a float: truncation toward zero. -/
def pyInt (q : ℚ) : ℤ := if 0 ≤ q then ⌊q⌋ else ⌈q⌉

/-- Python `x % y` on floats: `x - y * floor (x / y)` (sign of the divisor;
all moduli in the source are positive). -/
def pyMod (a b : ℚ) : ℚ := a - b * ⌊a / b⌋

/-- `np.uint8` saturating cast used by `cv2.addWeighted`. -/
def sat8 (z : ℤ) : Fin 256 :=
  ⟨(max 0 (min 255 z)).toNat, by omega⟩

/-- `np.uint8` wrapping cast used by plain numpy assignment (`canvas[:] = c`). -/
def wrap8 (z : ℤ) : Fin 256 :=
  ⟨(z.emod 256).toNat, by
    have h1 : 0 ≤ z.emod 256 := Int.emod_nonneg z (by norm_num)
    have h2 : z.emod 256 < 256 := Int.emod_lt_of_pos z (by norm_num)
    omega⟩

/-- OpenCV scalar rounding (round to nearest; OpenCV breaks ties to even,
which never matters below since the rounded values are exact integers). -/
def cvRound (q : ℚ) : ℤ := ⌊q + 1/2⌋

/-- An 8-bit RGB pixel, as stored in the `np.uint8` canvas. -/
structure RGB8 where
  r : Fin 256
  g : Fin 256
  b : Fin 256
deriving DecidableEq

/-- The raster buffer: `np.zeros((height, width, 3), dtype=np.uint8)`.
`pix y x` is the pixel at row `y`, column `x`. -/
structure Canvas where
  width : ℕ
  height : ℕ
  pix : ℕ → ℕ → RGB8

/-- The constructor arguments of `Chimerox.__init__` (the validated
configuration: `iota` is the primary seed, `omicron` the secondary seed,
`threshold` the density). -/
structure Config where
  iota : ℤ
  omicron : ℤ
  phase : ℚ
  threshold : ℤ
  resonance : ℚ
  entropy : ℚ
  width : ℕ
  height : ℕ
  duration : ℕ
  fps : ℕ

/-- Deterministic model of the external libraries (see the file header).
`u s k` is the `k`-th `random.random()` draw after `random.seed s`. -/
structure Model where
  u : ℤ → ℕ → ℚ
  u_nonneg : ∀ s k, 0 ≤ u s k
  u_lt_one : ∀ s k, u s k < 1
  msin : ℚ → ℚ
  mcos : ℚ → ℚ
  msqrt : ℚ → ℚ
  matan2 : ℚ → ℚ → ℚ
  mpi : ℚ
  msin_zero : msin 0 = 0
  msin_le_one : ∀ x, msin x ≤ 1
  neg_one_le_msin : ∀ x, -1 ≤ msin x
  circlePix : (ℕ → ℕ → RGB8) → ℤ × ℤ → ℤ → ℤ × ℤ × ℤ → ℤ → (ℕ → ℕ → RGB8)
  linePix : (ℕ → ℕ → RGB8) → ℤ × ℤ → ℤ × ℤ → ℤ × ℤ × ℤ → ℤ → (ℕ → ℕ → RGB8)
  remapPix : (ℕ → ℕ → RGB8) → (ℕ → ℕ → ℚ) → (ℕ → ℕ → ℚ) → (ℕ → ℕ → RGB8)

/-- State of the global `random` stream: the last seed and the number of
draws made since it was set. -/
structure RNGState where
  sd : ℤ
  ix : ℕ

/-- `random.seed(v)`. -/
def seedRNG (v : ℤ) : RNGState := ⟨v, 0⟩

/-- `random.random()`: one uniform draw in `[0, 1)`, advancing the stream. -/
def randomUnit (M : Model) (s : RNGState) : ℚ × RNGState :=
  (M.u s.sd s.ix, ⟨s.sd, s.ix + 1⟩)

/-- `random.uniform(lo, hi) = lo + (hi - lo) * random.random()`. -/
def uniformR (M : Model) (lo hi : ℚ) (s : RNGState) : ℚ × RNGState :=
  (lo + (hi - lo) * (randomUnit M s).1, (randomUnit M s).2)

/-- `self.total_frames = duration * fps`. -/
def totalFrames (cfg : Config) : ℕ := cfg.duration * cfg.fps

/-- `self.num_particles = int(threshold * 0.15 * (0.3 + entropy * 0.7))`. -/
def numParticles (cfg : Config) : ℕ :=
  (pyInt ((cfg.threshold : ℚ) * (15/100) * (3/10 + cfg.entropy * (7/10)))).toNat

/-- `self.base_hue = (iota % 360) / 360.0`. -/
def baseHue (cfg : Config) : ℚ := ((cfg.iota.emod 360 : ℤ) : ℚ) / 360

/-- `self.hue_shift = (omicron % 100) / 100.0`. -/
def hueShift (cfg : Config) : ℚ := ((cfg.omicron.emod 100 : ℤ) : ℚ) / 100

/-- `self.bokeh_movement_speed = 0.8 + entropy * 0.5`. -/
def bokehMovementSpeed (cfg : Config) : ℚ := 8/10 + cfg.entropy * (1/2)

/-- `self.wave_count = int(8 + (threshold / 100) * entropy)`. -/
def waveCount (cfg : Config) : ℕ :=
  (pyInt (8 + ((cfg.threshold : ℚ) / 100) * cfg.entropy)).toNat

/-- `self.wave_curves = 1 + int((omicron % 5) * entropy)` (computed but
never read by the drawing code). -/
def waveCurves (cfg : Config) : ℤ :=
  1 + pyInt (((cfg.omicron.emod 5 : ℤ) : ℚ) * cfg.entropy)

/-- `self.wave_depth = 60 + (threshold / 15) * (1 + abs(phase))`. -/
def waveDepth (cfg : Config) : ℚ :=
  60 + ((cfg.threshold : ℚ) / 15) * (1 + |cfg.phase|)

/-- `self.wave_speed = 0.02 + resonance * 0.008`. -/
def waveSpeed (cfg : Config) : ℚ := 2/100 + cfg.resonance * (8/1000)

/-- `self.wave_opacity = int(80 + entropy * 120)` (computed but never read). -/
def waveOpacity (cfg : Config) : ℤ := pyInt (80 + cfg.entropy * 120)

/-- `self.vortex_intensity = entropy * resonance * 1.5`. -/
def vortexIntensity (cfg : Config) : ℚ := cfg.entropy * cfg.resonance * (3/2)

/-- `self.vortex_rotation_speed = 0.03 + abs(phase) * 0.05`. -/
def vortexRotationSpeed (cfg : Config) : ℚ := 3/100 + |cfg.phase| * (5/100)

/-- `self.distortion_strength = entropy * resonance * 0.3`. -/
def distortionStrength (cfg : Config) : ℚ := cfg.entropy * cfg.resonance * (3/10)

/-- `self.distortion_type = omicron % 4`. -/
def distortionType (cfg : Config) : ℤ := cfg.omicron.emod 4

/-- `self.distortion_speed = 0.02 + abs(phase) * 0.03`. -/
def distortionSpeed (cfg : Config) : ℚ := 2/100 + |cfg.phase| * (3/100)

/-- `blend_factor = min(1.0, self.distortion_strength * 2)` from
`_apply_reality_distortion`. -/
def blendFactor (cfg : Config) : ℚ := min 1 (distortionStrength cfg * 2)

/-- `step = max(1, int(4 - self.distortion_strength * 8))` from
`_apply_reality_distortion`. -/
def distortStep (cfg : Config) : ℤ := max 1 (pyInt (4 - distortionStrength cfg * 8))

/-- A particle record, as built by `_init_particles`. -/
structure Particle where
  x : ℚ
  y : ℚ
  vx : ℚ
  vy : ℚ
  size : ℚ
  age : ℕ
  life : ℚ
  orbitRadius : ℚ
  orbitSpeed : ℚ
  colorOffset : ℚ

/-- `seed_offset = (iota + i * omicron) % 10000`. -/
def particleSeed (cfg : Config) (i : ℕ) : ℤ :=
  (cfg.iota + (i : ℤ) * cfg.omicron).emod 10000

/-- The nine `random.uniform` draws of one particle, in source order
(x, y, vx, vy, size, life, orbit_radius, orbit_speed, color_offset). -/
def drawParticle (M : Model) (cfg : Config) (s0 : RNGState) : Particle × RNGState :=
  let dx := uniformR M 0 (cfg.width : ℚ) s0
  let dy := uniformR M 0 (cfg.height : ℚ) dx.2
  let dvx := uniformR M (-4) 4 dy.2
  let dvy := uniformR M (-4) 4 dvx.2
  let dsz := uniformR M 2 12 dvy.2
  let dlf := uniformR M 80 300 dsz.2
  let dor := uniformR M 20 200 dlf.2
  let dos := uniformR M (2/100) (8/100) dor.2
  let dco := uniformR M 0 1 dos.2
  ({ x := dx.1, y := dy.1, vx := dvx.1 * cfg.entropy, vy := dvy.1 * cfg.entropy,
     size := dsz.1, age := 0, life := dlf.1, orbitRadius := dor.1,
     orbitSpeed := dos.1 * cfg.resonance, colorOffset := dco.1 }, dco.2)

/-- Particle `i` as a pure function of the configuration: the stream is
re-seeded with `particleSeed cfg i` just before its fields are drawn. -/
def particleOfIndex (M : Model) (cfg : Config) (i : ℕ) : Particle :=
  (drawParticle M cfg (seedRNG (particleSeed cfg i))).1

/-- The loop body of `_init_particles`, starting at index `i` with `n`
particles still to build. -/
def initParticlesAux (M : Model) (cfg : Config) : ℕ → ℕ → RNGState → List Particle × RNGState
  | _, 0, s => ([], s)
  | i, n + 1, _ =>
    let pr := drawParticle M cfg (seedRNG (particleSeed cfg i))
    let rest := initParticlesAux M cfg (i + 1) n pr.2
    (pr.1 :: rest.1, rest.2)

/-- `self.particles = self._init_particles()`. -/
def initParticles (M : Model) (cfg : Config) (s : RNGState) : List Particle × RNGState :=
  initParticlesAux M cfg 0 (numParticles cfg) s

/-- A bokeh record, as built by `_init_bokeh`. -/
structure Bokeh where
  x : ℚ
  y : ℚ
  size : ℚ
  hue : ℚ
  flickerOffset : ℚ
  movementAngle : ℚ
  depth : ℚ

/-- `bokeh_count = int(25 + threshold * 0.08)`. -/
def bokehCount (cfg : Config) : ℕ :=
  (pyInt (25 + (cfg.threshold : ℚ) * (8/100))).toNat

/-- One iteration of the `_init_bokeh` loop (no reseed: the stream simply
continues from wherever particle initialization left it). -/
def drawBokeh (M : Model) (cfg : Config) (s0 : RNGState) : Bokeh × RNGState :=
  let paletteRange := ((cfg.omicron.emod 300 : ℤ) : ℚ) / 300
  let dr := randomUnit M s0
  let hueVariation := (dr.1 - 1/2) * paletteRange
  let hue := pyMod (baseHue cfg + hueVariation) 1
  let dx := uniformR M (-100) ((cfg.width : ℚ) + 100) dr.2
  let dy := uniformR M (-100) ((cfg.height : ℚ) + 100) dx.2
  let dsz := uniformR M 40 180 dy.2
  let dfo := uniformR M 0 (M.mpi * 2) dsz.2
  let dma := uniformR M 0 (M.mpi * 2) dfo.2
  let ddp := uniformR M (4/10) (12/10) dma.2
  ({ x := dx.1, y := dy.1, size := dsz.1, hue := hue, flickerOffset := dfo.1,
     movementAngle := dma.1, depth := ddp.1 }, ddp.2)

/-- The `_init_bokeh` loop. -/
def initBokehAux (M : Model) (cfg : Config) : ℕ → RNGState → List Bokeh × RNGState
  | 0, s => ([], s)
  | n + 1, s =>
    let br := drawBokeh M cfg s
    let rest := initBokehAux M cfg n br.2
    (br.1 :: rest.1, rest.2)

/-- A vortex center, as built by `_init_vortex_centers`. -/
structure Vortex where
  x : ℚ
  y : ℚ
  orbitRadius : ℚ
  orbitSpeed : ℚ
  strength : ℚ

/-- `vortex_count = int(2 + (entropy * 3))`. -/
def vortexCount (cfg : Config) : ℕ := (pyInt (2 + cfg.entropy * 3)).toNat

/-- One iteration of the `_init_vortex_centers` loop. -/
def drawVortex (M : Model) (cfg : Config) (s0 : RNGState) : Vortex × RNGState :=
  let dx := uniformR M ((2/10) * (cfg.width : ℚ)) ((8/10) * (cfg.width : ℚ)) s0
  let dy := uniformR M ((2/10) * (cfg.height : ℚ)) ((8/10) * (cfg.height : ℚ)) dx.2
  let dor := uniformR M 50 150 dy.2
  let dos := uniformR M (5/1000) (2/100) dor.2
  let dst := uniformR M (1/2) (3/2) dos.2
  ({ x := dx.1, y := dy.1, orbitRadius := dor.1,
     orbitSpeed := dos.1 * cfg.resonance, strength := dst.1 * cfg.entropy }, dst.2)

/-- The `_init_vortex_centers` loop. -/
def initVortexAux (M : Model) (cfg : Config) : ℕ → RNGState → List Vortex × RNGState
  | 0, s => ([], s)
  | n + 1, s =>
    let vr := drawVortex M cfg s
    let rest := initVortexAux M cfg n vr.2
    (vr.1 :: rest.1, rest.2)

/-- A distortion center, as built by `_init_distortion_centers`. -/
structure DCenter where
  x : ℚ
  y : ℚ
  strength : ℚ
  radius : ℚ
  rotationSpeed : ℚ
  phaseOffset : ℚ

/-- `center_count = int(1 + (entropy * 2))` (only reached when
`distortion_strength >= 0.1`). -/
def distortionCenterCount (cfg : Config) : ℕ := (pyInt (1 + cfg.entropy * 2)).toNat

/-- One iteration of the `_init_distortion_centers` loop. -/
def drawDCenter (M : Model) (cfg : Config) (s0 : RNGState) : DCenter × RNGState :=
  let dx := uniformR M ((3/10) * (cfg.width : ℚ)) ((7/10) * (cfg.width : ℚ)) s0
  let dy := uniformR M ((3/10) * (cfg.height : ℚ)) ((7/10) * (cfg.height : ℚ)) dx.2
  let dst := uniformR M (1/2) (3/2) dy.2
  let drd := uniformR M 100 ((min cfg.width cfg.height : ℕ) * (4/10)) dst.2
  let drs := uniformR M (5/1000) (2/100) drd.2
  let dpo := uniformR M 0 (M.mpi * 2) drs.2
  ({ x := dx.1, y := dy.1, strength := dst.1 * distortionStrength cfg,
     radius := drd.1, rotationSpeed := drs.1 * distortionSpeed cfg,
     phaseOffset := dpo.1 }, dpo.2)

/-- The `_init_distortion_centers` loop body. -/
def initDCenterAux (M : Model) (cfg : Config) : ℕ → RNGState → List DCenter × RNGState
  | 0, s => ([], s)
  | n + 1, s =>
    let dr := drawDCenter M cfg s
    let rest := initDCenterAux M cfg n dr.2
    (dr.1 :: rest.1, rest.2)

/-- `self.distortion_centers = self._init_distortion_centers()`: an empty
list (and no draws) when `distortion_strength < 0.1`. -/
def initDistortion (M : Model) (cfg : Config) (s : RNGState) : List DCenter × RNGState :=
  if distortionStrength cfg < 1/10 then ([], s)
  else initDCenterAux M cfg (distortionCenterCount cfg) s

/-- `colorsys.hsv_to_rgb`, translated from the CPython standard library. -/
def hsvToRgb (h s v : ℚ) : ℚ × ℚ × ℚ :=
  if s = 0 then (v, v, v) else
  let i0 := pyInt (h * 6)
  let f := h * 6 - (i0 : ℚ)
  let p := v * (1 - s)
  let q := v * (1 - s * f)
  let t := v * (1 - s * (1 - f))
  let i := i0.emod 6
  if i = 0 then (v, t, p)
  else if i = 1 then (q, v, p)
  else if i = 2 then (p, v, t)
  else if i = 3 then (p, q, v)
  else if i = 4 then (t, p, v)
  else (v, p, q)

/-- `tuple(int(c * 255) for c in rgb)`. -/
def rgb255 (c : ℚ × ℚ × ℚ) : ℤ × ℤ × ℤ :=
  (pyInt (c.1 * 255), pyInt (c.2.1 * 255), pyInt (c.2.2 * 255))

/-- `tuple(int(c * f) for c in color)` (used for glow, trail and line
colors, with `c` an integer channel and `f` a float factor). -/
def scaleColor (f : ℚ) (c : ℤ × ℤ × ℤ) : ℤ × ℤ × ℤ :=
  (pyInt ((c.1 : ℚ) * f), pyInt ((c.2.1 : ℚ) * f), pyInt ((c.2.2 : ℚ) * f))

/-- `Chimerox._get_color(t, particle)`. -/
def getColor (M : Model) (cfg : Config) (t : ℚ) (p : Particle) : ℤ × ℤ × ℤ :=
  let baseT := (t + cfg.phase) * cfg.resonance
  let hueMod := pyMod (baseHue cfg + p.colorOffset * hueShift cfg
    + M.msin (baseT * (1/100)) * (2/10)) 1
  let saturation := 7/10 + (3/10) * M.msin (baseT * (2/100) + (p.age : ℚ) * (1/10))
  let value := 8/10 + (2/10) * M.mcos (baseT * (3/100))
  rgb255 (hsvToRgb hueMod saturation value)

/-- Boundary wrapping from `_update_particle`:
`if coord < 0 or coord > extent: coord = (coord + phase * 100) % extent`. -/
def wrapCoord (phase extent coord : ℚ) : ℚ :=
  if coord < 0 ∨ extent < coord then pyMod (coord + phase * 100) extent else coord

/-- `Chimerox._update_particle(particle, frame)`: one chaos draw, velocity
and orbital-attraction update, integration, boundary wrap, aging, and the
in-place respawn when `age > life`. -/
def updateParticle (M : Model) (cfg : Config) (p : Particle) (frame : ℕ)
    (s0 : RNGState) : Particle × RNGState :=
  let t := (frame : ℚ) + cfg.phase * 1000
  let waveForce := M.msin (t * (1/100) + p.x * (1/100)) * cfg.resonance
  let dr := randomUnit M s0
  let chaosForce := (dr.1 - 1/2) * cfg.entropy * 2
  let orbitT := t * p.orbitSpeed + ((cfg.omicron.emod 1000 : ℤ) : ℚ) * (1/100)
  let orbitX := M.mcos orbitT * p.orbitRadius
  let orbitY := M.msin orbitT * p.orbitRadius
  let vx1 := p.vx + waveForce * (1/10) + chaosForce
  let vy1 := p.vy + M.mcos (t * (8/1000)) * cfg.resonance * (1/10) + chaosForce
  let centerX := (cfg.width : ℚ) / 2 + orbitX
  let centerY := (cfg.height : ℚ) / 2 + orbitY
  let dxq := centerX - p.x
  let dyq := centerY - p.y
  let dist := M.msqrt (dxq * dxq + dyq * dyq)
  let force := min 1 ((cfg.threshold : ℚ) / 1000)
  let vx2 := if 0 < dist then vx1 + (dxq / dist) * force * (2/100) else vx1
  let vy2 := if 0 < dist then vy1 + (dyq / dist) * force * (2/100) else vy1
  let x1 := p.x + vx2
  let y1 := p.y + vy2
  let x2 := wrapCoord cfg.phase (cfg.width : ℚ) x1
  let y2 := wrapCoord cfg.phase (cfg.height : ℚ) y1
  let age1 := p.age + 1
  if p.life < (age1 : ℚ) then
    let dnx := uniformR M 0 (cfg.width : ℚ) dr.2
    let dny := uniformR M 0 (cfg.height : ℚ) dnx.2
    let dnl := uniformR M 50 200 dny.2
    ({ p with x := dnx.1, y := dny.1, vx := vx2, vy := vy2, age := 0, life := dnl.1 }, dnl.2)
  else
    ({ p with x := x2, y := y2, vx := vx2, vy := vy2, age := age1 }, dr.2)

/-- Python `range(start, 0, -stp)` for `stp > 0` (the bokeh gradient loop). -/
def rangeDown (start stp : ℤ) : List ℤ :=
  if 0 < stp then
    (List.range ((start + stp - 1).ediv stp).toNat).map (fun k => start - (k : ℤ) * stp)
  else []

/-- Python `range(0, stop, stp)` for `stp > 0`. -/
def rangeStepNat (stop stp : ℕ) : List ℕ :=
  if stp = 0 then [] else (List.range ((stop + stp - 1) / stp)).map (· * stp)

/-- `cv2.circle(canvas, center, radius, color, thickness)`: draws in place,
never changes the buffer shape. -/
def drawCircle (M : Model) (c : Canvas) (center : ℤ × ℤ) (radius : ℤ)
    (col : ℤ × ℤ × ℤ) (thickness : ℤ) : Canvas :=
  { c with pix := M.circlePix c.pix center radius col thickness }

/-- `cv2.line(canvas, p1, p2, color, thickness)`. -/
def drawLine (M : Model) (c : Canvas) (p1 p2 : ℤ × ℤ) (col : ℤ × ℤ × ℤ)
    (thickness : ℤ) : Canvas :=
  { c with pix := M.linePix c.pix p1 p2 col thickness }

/-- Position advance and edge wrap of one bokeh particle (the mutation part
of the `_draw_bokeh` loop body). -/
def stepBokeh (M : Model) (cfg : Config) (b : Bokeh) : Bokeh :=
  let ms := bokehMovementSpeed cfg * (3/10)
  let x1 := b.x + M.mcos b.movementAngle * ms
  let y1 := b.y + M.msin b.movementAngle * ms
  let x2 := if x1 < -150 then (cfg.width : ℚ) + 100 else x1
  let x3 := if (cfg.width : ℚ) + 150 < x2 then -100 else x2
  let y2 := if y1 < -150 then (cfg.height : ℚ) + 100 else y1
  let y3 := if (cfg.height : ℚ) + 150 < y2 then -100 else y2
  { b with x := x3, y := y3 }

/-- One iteration of the `_draw_bokeh` loop: move the bokeh, then render
its radial gradient. -/
def drawOneBokeh (M : Model) (cfg : Config) (canvas : Canvas) (frame : ℕ)
    (b : Bokeh) : Canvas × Bokeh :=
  let brightness := 1/2 + (cfg.phase + 1) * (4/10)
  let b1 := stepBokeh M cfg b
  let flickerT := (frame : ℚ) * (8/1000) + b1.flickerOffset
  let flicker := 7/10 + (3/10) * M.msin flickerT * M.mcos (flickerT * (17/10))
  let saturation := 7/10 + (3/10) * M.msin ((frame : ℚ) * (2/1000) + b1.hue * 10)
  let value := brightness * flicker * b1.depth
  let col := rgb255 (hsvToRgb b1.hue saturation value)
  let xi := pyInt b1.x
  let yi := pyInt b1.y
  let szi := pyInt (b1.size * (8/10 + (2/10) * flicker))
  let canvas1 :=
    if -szi ≤ xi ∧ xi ≤ (cfg.width : ℤ) + szi ∧ -szi ≤ yi ∧ yi ≤ (cfg.height : ℤ) + szi then
      (rangeDown szi (max 1 (szi.ediv 6))).foldl (fun c (radius : ℤ) =>
        let alpha := (1 - (radius : ℚ) / (szi : ℚ)) * (6/10)
        drawCircle M c (xi, yi) radius (scaleColor alpha col) (-1)) canvas
    else canvas
  (canvas1, b1)

/-- The `_draw_bokeh` loop over the bokeh list, threading the canvas and
collecting the mutated bokeh records. -/
def drawBokehLayer (M : Model) (cfg : Config) (canvas : Canvas) (frame : ℕ) :
    List Bokeh → Canvas × List Bokeh
  | [] => (canvas, [])
  | b :: rest =>
    let r := drawOneBokeh M cfg canvas frame b
    let rr := drawBokehLayer M cfg r.1 frame rest
    (rr.1, r.2 :: rr.2)

/-- The sampled polyline of one wave in `_draw_waves`. -/
def wavePoints (M : Model) (cfg : Config) (frame waveIdx : ℕ) : List (ℤ × ℤ) :=
  let t := (frame : ℚ) * waveSpeed cfg
  let waveOffset := (waveIdx : ℚ) * (M.mpi * 2 / (waveCount cfg : ℚ))
  let frequency := 8/1000 + cfg.resonance * (3/1000)
  let amplitude := waveDepth cfg * (8/10 + (4/10) * M.msin (t + waveOffset))
  (rangeStepNat cfg.width (max 1 (cfg.width / 300))).map (fun (x : ℕ) =>
    let yBase := cfg.height / 3 + waveIdx * cfg.height / (waveCount cfg + 1)
    let wave1 := amplitude * M.msin ((x : ℚ) * frequency + t * 2 + waveOffset)
    let diagonalFlow := ((x : ℚ) / (cfg.width : ℚ)) * 150 * M.msin (t * (1/2) + waveOffset)
    let wave2 := amplitude * (4/10) * M.msin ((x : ℚ) * frequency * (18/10) + t * (13/10) + waveOffset)
    let wave3 := amplitude * (2/10) * M.mcos ((x : ℚ) * frequency * (6/10) + t * (7/10) + waveOffset)
    ((x : ℤ), pyInt ((yBase : ℚ) + wave1 + wave2 + wave3 + diagonalFlow)))

/-- The segment loop of `_draw_waves`: a wide glow stroke then the main
stroke, for segments whose endpoints are vertically on-canvas. -/
def drawWaveSegments (M : Model) (cfg : Config) (col glowCol : ℤ × ℤ × ℤ)
    (thickness : ℤ) (canvas : Canvas) (pts : List (ℤ × ℤ)) : Canvas :=
  (pts.zip pts.tail).foldl (fun c pr =>
    if 0 ≤ pr.1.2 ∧ pr.1.2 < (cfg.height : ℤ) ∧ 0 ≤ pr.2.2 ∧ pr.2.2 < (cfg.height : ℤ) then
      drawLine M (drawLine M c pr.1 pr.2 glowCol (thickness + 8)) pr.1 pr.2 col thickness
    else c) canvas

/-- `Chimerox._draw_waves(canvas, frame)`. -/
def drawWaves (M : Model) (cfg : Config) (canvas : Canvas) (frame : ℕ) : Canvas :=
  let t := (frame : ℚ) * waveSpeed cfg
  (List.range (waveCount cfg)).foldl (fun c (waveIdx : ℕ) =>
    let waveOffset := (waveIdx : ℚ) * (M.mpi * 2 / (waveCount cfg : ℚ))
    let hue := pyMod (baseHue cfg + (waveIdx : ℚ) * (15/100) + t * (2/100)) 1
    let saturation := 8/10 + cfg.resonance * (2/10)
    let value := 8/10 + (2/10) * M.msin (t * 3 + waveOffset)
    let waveColor := rgb255 (hsvToRgb hue saturation value)
    let thickness := max 2 (pyInt (6 + cfg.entropy * 8))
    drawWaveSegments M cfg waveColor (scaleColor (4/10) waveColor) thickness c
      (wavePoints M cfg frame waveIdx)) canvas

/-- The spiral loop of `_draw_vortex_field` for one vortex center. -/
def drawVortexSpiral (M : Model) (cfg : Config) (v : Vortex) (canvas : Canvas)
    (frame : ℕ) : Canvas :=
  let t := (frame : ℚ) * (1/100)
  let orbitT := t * v.orbitSpeed
  let centerX := v.x + M.mcos orbitT * 30
  let centerY := v.y + M.msin orbitT * 30
  let spiralPoints := (pyInt (20 + (cfg.threshold : ℚ) * (1/10))).toNat
  (List.range spiralPoints).foldl (fun c (spiralIdx : ℕ) =>
    let angleStep := ((spiralIdx : ℚ) / (spiralPoints : ℚ)) * M.mpi * 4
    let radius := (spiralIdx : ℚ) * 2 + 10
    let rotation := t * vortexRotationSpeed cfg + angleStep
    let x := centerX + M.mcos rotation * radius
    let y := centerY + M.msin rotation * radius
    if 0 ≤ x ∧ x < (cfg.width : ℚ) ∧ 0 ≤ y ∧ y < (cfg.height : ℚ) then
      let energyHue := pyMod (baseHue cfg + rotation * (1/10)) 1
      let energySat := 8/10 + (2/10) * M.msin (t * 3 + (spiralIdx : ℚ))
      let energyVal := v.strength * (1 - (spiralIdx : ℚ) / (spiralPoints : ℚ)) * (8/10)
      let energyColor := rgb255 (hsvToRgb energyHue energySat energyVal)
      let particleSize := max 1 (pyInt (3 * v.strength * (1 - (spiralIdx : ℚ) / (spiralPoints : ℚ))))
      let c1 := drawCircle M c (pyInt x, pyInt y) particleSize energyColor (-1)
      if 0 < spiralIdx ∧ spiralIdx % 3 = 0 then
        let prevAngle := (((spiralIdx : ℚ) - 3) / (spiralPoints : ℚ)) * M.mpi * 4
        let prevRadius := ((spiralIdx : ℚ) - 3) * 2 + 10
        let prevRotation := t * vortexRotationSpeed cfg + prevAngle
        let prevX := centerX + M.mcos prevRotation * prevRadius
        let prevY := centerY + M.msin prevRotation * prevRadius
        if 0 ≤ prevX ∧ prevX < (cfg.width : ℚ) ∧ 0 ≤ prevY ∧ prevY < (cfg.height : ℚ) then
          drawLine M c1 (pyInt prevX, pyInt prevY) (pyInt x, pyInt y)
            (scaleColor (4/10) energyColor) 1
        else c1
      else c1
    else c) canvas

/-- `Chimerox._draw_vortex_field(canvas, frame)`: skipped entirely when
`vortex_intensity < 0.3`. -/
def drawVortexField (M : Model) (cfg : Config) (centers : List Vortex)
    (canvas : Canvas) (frame : ℕ) : Canvas :=
  if vortexIntensity cfg < 3/10 then canvas
  else centers.foldl (fun c v => drawVortexSpiral M cfg v c frame) canvas

/-- The particle-rendering part of the `_draw_frame` particle loop (main
disc, entropy glow ring, trailing discs). -/
def drawParticleGfx (M : Model) (cfg : Config) (canvas : Canvas) (frame : ℕ)
    (p : Particle) : Canvas :=
  let color := getColor M cfg (frame : ℚ) p
  let xi := pyInt p.x
  let yi := pyInt p.y
  let szi := pyInt (p.size * (1 + M.msin ((frame : ℚ) * (2/100)) * (3/10)))
  if 0 ≤ xi ∧ xi < (cfg.width : ℤ) ∧ 0 ≤ yi ∧ yi < (cfg.height : ℤ) then
    let c1 := drawCircle M canvas (xi, yi) szi color (-1)
    let c2 :=
      if 1/2 < cfg.entropy then
        drawCircle M c1 (xi, yi) (szi + 3) (scaleColor (3/10) color) 1
      else c1
    let trailLength := (pyInt (12 + cfg.resonance * 8)).toNat
    ((List.range (trailLength - 1)).map (· + 1)).foldl (fun c (i : ℕ) =>
      let trailX := pyInt ((xi : ℚ) - p.vx * (i : ℚ) * (8/10))
      let trailY := pyInt ((yi : ℚ) - p.vy * (i : ℚ) * (8/10))
      if 0 ≤ trailX ∧ trailX < (cfg.width : ℤ) ∧ 0 ≤ trailY ∧ trailY < (cfg.height : ℤ) then
        let alpha := 1 - (i : ℚ) / (trailLength : ℚ)
        drawCircle M c (trailX, trailY) (max 1 (pyInt ((szi : ℚ) * alpha)))
          (scaleColor (alpha * (8/10)) color) (-1)
      else c) c2
  else canvas

/-- The particle loop of `_draw_frame`: update each particle in list order
(advancing the shared stream), then draw it. -/
def particlesStage (M : Model) (cfg : Config) (frame : ℕ) (canvas : Canvas) :
    List Particle → RNGState → Canvas × List Particle × RNGState
  | [], s => (canvas, [], s)
  | p :: rest, s =>
    let pu := updateParticle M cfg p frame s
    let c1 := drawParticleGfx M cfg canvas frame pu.1
    let r := particlesStage M cfg frame c1 rest pu.2
    (r.1, pu.1 :: r.2.1, r.2.2)

/-- `np.clip(v, lo, hi)` on one scalar. -/
def clampQ (lo hi v : ℚ) : ℚ := max lo (min hi v)

/-- The time-orbited effective position of a distortion center
(`center_x`, `center_y` in `_apply_reality_distortion`). -/
def effCenter (M : Model) (c : DCenter) (t : ℚ) : ℚ × ℚ :=
  (c.x + 20 * M.mcos (t * c.rotationSpeed + c.phaseOffset),
   c.y + 20 * M.msin (t * c.rotationSpeed + c.phaseOffset))

/-- The `(offset_x, offset_y)` one distortion center contributes at the
sampled block position `(bx, byy)`, per the four `distortion_type` modes. -/
def centerOffset (M : Model) (cfg : Config) (c : DCenter) (t : ℚ)
    (bx byy : ℕ) : ℚ × ℚ :=
  let ec := effCenter M c t
  let dxq := (bx : ℚ) - ec.1
  let dyq := (byy : ℚ) - ec.2
  let distance := M.msqrt (dxq * dxq + dyq * dyq)
  if distance < c.radius ∧ 1 < distance then
    let influence := (1 - distance / c.radius) * c.strength
    if distortionType cfg = 0 then
      let angle := M.matan2 dyq dxq + influence * 2 + t
      let newDist := distance * (1 + influence * (1/10) * M.msin (distance * (5/100) + t))
      (M.mcos angle * newDist - dxq, M.msin angle * newDist - dyq)
    else if distortionType cfg = 1 then
      let ripple := M.msin (distance * (1/10) - t * 3) * influence * 10
      if 0 < distance then ((dxq / distance) * ripple, (dyq / distance) * ripple)
      else (0, 0)
    else if distortionType cfg = 2 then
      let zoomFactor := 1 + influence * (3/10) * M.msin (t * 2)
      (dxq * (zoomFactor - 1), dyq * (zoomFactor - 1))
    else if distortionType cfg = 3 then
      (influence * 15 * M.msin ((byy : ℚ) * (2/100) + t * 2),
       influence * 15 * M.mcos ((bx : ℚ) * (2/100) + t * (17/10)))
    else (0, 0)
  else (0, 0)

/-- The base of the sampling block containing coordinate `v`: the loop
`for v in range(0, extent, step)` visits exactly the multiples of `step`,
and the fill loop writes the block `[v, v + step)`. -/
def blockBase (stp v : ℕ) : ℕ := v / stp * stp

/-- Value of the displacement map `map_x` at pixel `(fy, fx)`.  The source
builds the map imperatively: identity, then for each center the offset
computed at each block's base coordinates is added to every pixel of the
block.  Each pixel belongs to exactly one block per center, so the final
entry is `fx` plus the sum over centers of that center's offset at the
pixel's block base. -/
def mapXAt (M : Model) (cfg : Config) (centers : List DCenter) (frame : ℕ)
    (fy fx : ℕ) : ℚ :=
  let t := (frame : ℚ) * distortionSpeed cfg
  let stp := (distortStep cfg).toNat
  (fx : ℚ) + (centers.map (fun c =>
    (centerOffset M cfg c t (blockBase stp fx) (blockBase stp fy)).1)).sum

/-- Value of the displacement map `map_y` at pixel `(fy, fx)`. -/
def mapYAt (M : Model) (cfg : Config) (centers : List DCenter) (frame : ℕ)
    (fy fx : ℕ) : ℚ :=
  let t := (frame : ℚ) * distortionSpeed cfg
  let stp := (distortStep cfg).toNat
  (fy : ℚ) + (centers.map (fun c =>
    (centerOffset M cfg c t (blockBase stp fx) (blockBase stp fy)).2)).sum

/-- The resampled frame: `cv2.remap(canvas, clip(map_x), clip(map_y),
INTER_LINEAR, BORDER_REFLECT)`. -/
def distortedCanvas (M : Model) (cfg : Config) (centers : List DCenter)
    (canvas : Canvas) (frame : ℕ) : Canvas :=
  let mx := fun fy fx => clampQ 0 ((canvas.width : ℚ) - 1) (mapXAt M cfg centers frame fy fx)
  let my := fun fy fx => clampQ 0 ((canvas.height : ℚ) - 1) (mapYAt M cfg centers frame fy fx)
  { canvas with pix := M.remapPix canvas.pix mx my }

/-- One channel of `cv2.addWeighted`: `saturate(round(a*alpha + b*beta + gamma))`. -/
def blendChan (alpha : ℚ) (a : Fin 256) (beta : ℚ) (b : Fin 256) (gamma : ℚ) : Fin 256 :=
  sat8 (cvRound (alpha * (a.val : ℚ) + beta * (b.val : ℚ) + gamma))

/-- `cv2.addWeighted(c1, alpha, c2, beta, gamma)`, pixelwise per channel. -/
def addWeighted (c1 : Canvas) (alpha : ℚ) (c2 : Canvas) (beta gamma : ℚ) : Canvas :=
  { width := c1.width, height := c1.height,
    pix := fun y x =>
      { r := blendChan alpha (c1.pix y x).r beta (c2.pix y x).r gamma,
        g := blendChan alpha (c1.pix y x).g beta (c2.pix y x).g gamma,
        b := blendChan alpha (c1.pix y x).b beta (c2.pix y x).b gamma } }

/-- `Chimerox._apply_reality_distortion(canvas, frame)`: returns the input
buffer untouched when `distortion_strength < 0.05`, otherwise blends the
resampled frame with the original by `blend_factor`. -/
def applyRealityDistortion (M : Model) (cfg : Config) (centers : List DCenter)
    (canvas : Canvas) (frame : ℕ) : Canvas :=
  if distortionStrength cfg < 5/100 then canvas
  else addWeighted canvas (1 - blendFactor cfg)
    (distortedCanvas M cfg centers canvas frame) (blendFactor cfg) 0

/-- `bg_intensity = int(20 + 10 * math.sin(frame * 0.01 + phase))`. -/
def bgIntensity (M : Model) (cfg : Config) (frame : ℕ) : ℤ :=
  pyInt (20 + 10 * M.msin ((frame : ℚ) * (1/100) + cfg.phase))

/-- The background tint `(bg_intensity, bg_intensity // 2, bg_intensity // 3)`
the buffer is cleared to before any layer draws. -/
def bgColorInt (M : Model) (cfg : Config) (frame : ℕ) : ℤ × ℤ × ℤ :=
  (bgIntensity M cfg frame, (bgIntensity M cfg frame).ediv 2,
   (bgIntensity M cfg frame).ediv 3)

/-- The freshly allocated canvas of `_draw_frame`, cleared to the
phase-modulated background tint. -/
def clearedCanvas (M : Model) (cfg : Config) (frame : ℕ) : Canvas :=
  { width := cfg.width, height := cfg.height,
    pix := fun _ _ =>
      { r := wrap8 (bgColorInt M cfg frame).1,
        g := wrap8 (bgColorInt M cfg frame).2.1,
        b := wrap8 (bgColorInt M cfg frame).2.2 } }

/-- The mutable per-run state: particle and bokeh records (mutated every
frame), the static vortex and distortion centers, and the RNG stream. -/
structure GenState where
  particles : List Particle
  bokeh : List Bokeh
  vortexCenters : List Vortex
  distortionCenters : List DCenter
  rng : RNGState

/-- `Chimerox.__init__`: seed the stream with `iota`, then build the
particle, bokeh, vortex-center and distortion-center lists in that order,
the latter three consuming whatever stream state the former left behind. -/
def initState (M : Model) (cfg : Config) : GenState :=
  let s0 := seedRNG cfg.iota
  let pr := initParticles M cfg s0
  let br := initBokehAux M cfg (bokehCount cfg) pr.2
  let vr := initVortexAux M cfg (vortexCount cfg) br.2
  let dr := initDistortion M cfg vr.2
  { particles := pr.1, bokeh := br.1, vortexCenters := vr.1,
    distortionCenters := dr.1, rng := dr.2 }

/-- The pre-distortion composite of `_draw_frame`: clear to the background
tint, then bokeh, waves, vortex field, and the particle update+draw loop,
in that fixed order. -/
def compositeFrame (M : Model) (cfg : Config) (st : GenState) (frame : ℕ) :
    Canvas × GenState :=
  let c0 := clearedCanvas M cfg frame
  let bk := drawBokehLayer M cfg c0 frame st.bokeh
  let c2 := drawWaves M cfg bk.1 frame
  let c3 := drawVortexField M cfg st.vortexCenters c2 frame
  let pr := particlesStage M cfg frame c3 st.particles st.rng
  (pr.1, { st with particles := pr.2.1, bokeh := bk.2, rng := pr.2.2 })

/-- `Chimerox._draw_frame(frame)`: the composite followed by the reality
distortion pass. -/
def drawFrame (M : Model) (cfg : Config) (st : GenState) (frame : ℕ) :
    Canvas × GenState :=
  let cf := compositeFrame M cfg st frame
  (applyRealityDistortion M cfg st.distortionCenters cf.1 frame, cf.2)

/-- The state after `n` frames of the canonical run. -/
def stateAt (M : Model) (cfg : Config) : ℕ → GenState
  | 0 => initState M cfg
  | n + 1 => (drawFrame M cfg (stateAt M cfg n) n).2

/-- The frame emitted at index `n` of the canonical run. -/
def frameAt (M : Model) (cfg : Config) (n : ℕ) : Canvas :=
  (drawFrame M cfg (stateAt M cfg n) n).1

/-- The frame loop of `Chimerox.generate`, with `fuel` frames left to
produce starting at index `frame`. -/
def runAux (M : Model) (cfg : Config) : ℕ → GenState → ℕ → List Canvas
  | 0, _, _ => []
  | fuel + 1, st, frame =>
    (drawFrame M cfg st frame).1 ::
      runAux M cfg fuel (drawFrame M cfg st frame).2 (frame + 1)

/-- The full sequence of frames `Chimerox.generate` hands to the video
sink: one canvas per `frame in range(total_frames)`. -/
def runFrames (M : Model) (cfg : Config) : List Canvas :=
  runAux M cfg (totalFrames cfg) (initState M cfg) 0

/-- A trajectory of one independent run of the generator: `emit n` is the
frame the run hands to the sink at index `n` and `st n` the mutable state
entering index `n`. -/
def IsRun (M : Model) (cfg : Config) (emit : ℕ → Canvas) (st : ℕ → GenState) : Prop :=
  st 0 = initState M cfg ∧
  ∀ n, (emit n, st (n + 1)) = drawFrame M cfg (st n) n

/-- A concrete instance of the external-library model, used to witness the
theorems at concrete inputs (any deterministic instance satisfying the
interface contracts will do). -/
def defaultModel : Model where
  u := fun _ _ => 0
  u_nonneg := fun _ _ => le_refl 0
  u_lt_one := fun _ _ => by norm_num
  msin := fun _ => 0
  mcos := fun _ => 1
  msqrt := fun _ => 0
  matan2 := fun _ _ => 0
  mpi := 22/7
  msin_zero := rfl
  msin_le_one := fun _ => by norm_num
  neg_one_le_msin := fun _ => by norm_num
  circlePix := fun pix _ _ _ _ => pix
  linePix := fun pix _ _ _ _ => pix
  remapPix := fun pix _ _ => pix

/-- The end-to-end scenario configuration of the spec: seeds 12345/0,
phase 0, density 500, resonance 2, entropy 0.5, 640x480, 1 s at 24 fps. -/
def cfgA : Config :=
  { iota := 12345, omicron := 0, phase := 0, threshold := 500, resonance := 2,
    entropy := 1/2, width := 640, height := 480, duration := 1, fps := 24 }

/-- A configuration with `distortion_strength = 1 * 2 * 0.3 = 0.6 >= 0.5`. -/
def cfgB : Config :=
  { iota := 1, omicron := 1, phase := 0, threshold := 100, resonance := 2,
    entropy := 1, width := 64, height := 48, duration := 1, fps := 1 }

/-- A configuration with `entropy = 0`, hence `distortion_strength = 0 < 0.05`. -/
def cfgC : Config :=
  { iota := 7, omicron := 3, phase := 0, threshold := 200, resonance := 2,
    entropy := 0, width := 64, height := 48, duration := 1, fps := 1 }

/-- A `random.uniform(lo, hi)` draw lies in `[lo, hi]` (in fact `[lo, hi)`
when `lo < hi`). -/
lemma uniformR_bounds (M : Model) (lo hi : ℚ) (s : RNGState) (h : lo ≤ hi) :
    lo ≤ (uniformR M lo hi s).1 ∧ (uniformR M lo hi s).1 ≤ hi := by
  have h1 := M.u_nonneg s.sd s.ix
  have h2 := M.u_lt_one s.sd s.ix
  unfold uniformR randomUnit
  dsimp only
  constructor <;> nlinarith

/-- Element `j` of the particle-initialization loop started at index `i` is
the particle of absolute index `i + j`, whatever stream state the loop was
entered with (each iteration re-seeds). -/
lemma initParticlesAux_get (M : Model) (cfg : Config) :
    ∀ n i j s, j < n →
      (initParticlesAux M cfg i n s).1.get? j = some (particleOfIndex M cfg (i + j)) := by
  intro n
  induction n with
  | zero => intro i j s h; omega
  | succ m ih =>
    intro i j s h
    cases j with
    | zero =>
      simp [initParticlesAux, particleOfIndex]
    | succ k =>
      have hk : k < m := by omega
      have := ih (i + 1) k ((drawParticle M cfg (seedRNG (particleSeed cfg i))).2) hk
      simp only [initParticlesAux, List.get?]
      rw [this]
      congr 2
      omega

/-- Concrete evaluation of the particle count at the end-to-end
configuration: `int(500 * 0.15 * (0.3 + 0.5 * 0.7)) = int(48.75) = 48`. -/
lemma numParticles_cfgA : numParticles cfgA = 48 := by
  have hq : ((cfgA.threshold : ℚ) * (15/100) * (3/10 + cfgA.entropy * (7/10))) = 195/4 := by
    norm_num [cfgA]
  have hfl : ⌊(195/4 : ℚ)⌋ = 48 := by
    apply Int.floor_eq_iff.mpr
    constructor <;> norm_num
  unfold numParticles pyInt
  rw [hq, if_pos (by norm_num : (0:ℚ) ≤ 195/4), hfl]
  rfl

/-- C2: before initializing particle `i` the stream is re-seeded with
`(primarySeed + i * secondarySeed) mod 10000`, and the particle's fields
are drawn in the fixed order x, y, vx, vy, size, life, orbitRadius,
orbitSpeed, colorOffset (stream positions 0 through 8 of that seed), so
each particle's initial state is a pure function of its index and the
configuration, independent of the incoming stream state. -/
theorem particle_init_reseeded (M : Model) (cfg : Config) (i : ℕ) (s : RNGState)
    (h : i < numParticles cfg) :
    (initParticles M cfg s).1.get? i = some (particleOfIndex M cfg i) ∧
    particleSeed cfg i = (cfg.iota + (i : ℤ) * cfg.omicron).emod 10000 ∧
    (particleOfIndex M cfg i).x = (cfg.width : ℚ) * M.u (particleSeed cfg i) 0 ∧
    (particleOfIndex M cfg i).y = (cfg.height : ℚ) * M.u (particleSeed cfg i) 1 ∧
    (particleOfIndex M cfg i).vx = (-4 + 8 * M.u (particleSeed cfg i) 2) * cfg.entropy ∧
    (particleOfIndex M cfg i).vy = (-4 + 8 * M.u (particleSeed cfg i) 3) * cfg.entropy ∧
    (particleOfIndex M cfg i).size = 2 + 10 * M.u (particleSeed cfg i) 4 ∧
    (particleOfIndex M cfg i).life = 80 + 220 * M.u (particleSeed cfg i) 5 ∧
    (particleOfIndex M cfg i).orbitRadius = 20 + 180 * M.u (particleSeed cfg i) 6 ∧
    (particleOfIndex M cfg i).orbitSpeed =
      (2/100 + (6/100) * M.u (particleSeed cfg i) 7) * cfg.resonance ∧
    (particleOfIndex M cfg i).colorOffset = M.u (particleSeed cfg i) 8 := by
  refine ⟨?_, rfl, ?_, ?_, ?_, ?_, ?_, ?_, ?_, ?_, ?_⟩
  · have := initParticlesAux_get M cfg (numParticles cfg) 0 i s h
    simpa [initParticles] using this
  all_goals
    simp only [particleOfIndex, drawParticle, uniformR, randomUnit, seedRNG]
    ring

/-- Witness for C2 at the end-to-end configuration (48 particles, index 0). -/
theorem particle_init_reseeded_witness :
    (initParticles defaultModel cfgA (seedRNG 0)).1.get? 0 =
      some (particleOfIndex defaultModel cfgA 0) :=
  (particle_init_reseeded defaultModel cfgA 0 (seedRNG 0)
    (by rw [numParticles_cfgA]; norm_num)).1

/-- C3: the particle count is `floor(threshold * 0.15 * (0.3 + entropy * 0.7))`
(for the valid parameter ranges, nonnegative density and entropy), and at
`density = 500, entropy = 0.5` it equals 48. -/
theorem particle_count_formula (cfg : Config)
    (h1 : 0 ≤ cfg.threshold) (h2 : 0 ≤ cfg.entropy) :
    (numParticles cfg : ℤ) =
      ⌊(cfg.threshold : ℚ) * (15/100) * (3/10 + cfg.entropy * (7/10))⌋ ∧
    numParticles cfgA = 48 := by
  constructor
  · have ht : (0 : ℚ) ≤ (cfg.threshold : ℚ) := by exact_mod_cast h1
    have hq : (0 : ℚ) ≤ (cfg.threshold : ℚ) * (15/100) * (3/10 + cfg.entropy * (7/10)) := by
      nlinarith
    unfold numParticles pyInt
    rw [if_pos hq]
    exact Int.toNat_of_nonneg (Int.floor_nonneg.mpr hq)
  · exact numParticles_cfgA

/-- Witness for C3 at the end-to-end configuration. -/
theorem particle_count_formula_witness :
    numParticles cfgA = 48 :=
  (particle_count_formula cfgA (by norm_num [cfgA]) (by norm_num [cfgA])).2

/-- C7: on an update call entered with `age` exceeding `life` (the source
checks `age > life` after incrementing), that same call resets `age` to 0,
redraws the position uniformly over the canvas, and redraws `life` in
`[50, 200]`. -/
theorem particle_respawn_update (M : Model) (cfg : Config) (p : Particle)
    (frame : ℕ) (s : RNGState) (h : p.life < (p.age : ℚ) + 1) :
    (updateParticle M cfg p frame s).1.age = 0 ∧
    50 ≤ (updateParticle M cfg p frame s).1.life ∧
    (updateParticle M cfg p frame s).1.life ≤ 200 ∧
    0 ≤ (updateParticle M cfg p frame s).1.x ∧
    (updateParticle M cfg p frame s).1.x ≤ (cfg.width : ℚ) ∧
    0 ≤ (updateParticle M cfg p frame s).1.y ∧
    (updateParticle M cfg p frame s).1.y ≤ (cfg.height : ℚ) := by
  have hc : p.life < ((p.age + 1 : ℕ) : ℚ) := by push_cast; exact h
  simp only [updateParticle]
  rw [if_pos hc]
  refine ⟨rfl, ?_, ?_, ?_, ?_, ?_, ?_⟩
  · exact (uniformR_bounds M 50 200 _ (by norm_num)).1
  · exact (uniformR_bounds M 50 200 _ (by norm_num)).2
  · exact (uniformR_bounds M 0 (cfg.width : ℚ) _ (by positivity)).1
  · exact (uniformR_bounds M 0 (cfg.width : ℚ) _ (by positivity)).2
  · exact (uniformR_bounds M 0 (cfg.height : ℚ) _ (by positivity)).1
  · exact (uniformR_bounds M 0 (cfg.height : ℚ) _ (by positivity)).2

/-- A particle whose age (5) already exceeds its life (1). -/
def pTest : Particle :=
  { x := 1, y := 2, vx := 0, vy := 0, size := 3, age := 5, life := 1,
    orbitRadius := 10, orbitSpeed := 1, colorOffset := 0 }

/-- Witness for C7: the forced-high-age particle respawns with age 0. -/
theorem particle_respawn_update_witness :
    (updateParticle defaultModel cfgA pTest 0 (seedRNG 0)).1.age = 0 :=
  (particle_respawn_update defaultModel cfgA pTest 0 (seedRNG 0)
    (by norm_num [pTest])).1

/-- C10: the initial life of every particle is drawn from `[80, 300]`
(`random.uniform(80, 300)` in `_init_particles`), while the life redrawn
at respawn is drawn from the strictly different range `[50, 200]`
(`random.uniform(50, 200)` in `_update_particle`). -/
theorem life_range_init_vs_respawn (M : Model) (cfg : Config) (i : ℕ)
    (p : Particle) (frame : ℕ) (s : RNGState) (h : p.life < (p.age : ℚ) + 1) :
    (80 ≤ (particleOfIndex M cfg i).life ∧ (particleOfIndex M cfg i).life ≤ 300) ∧
    (50 ≤ (updateParticle M cfg p frame s).1.life ∧
      (updateParticle M cfg p frame s).1.life ≤ 200) := by
  have hc : p.life < ((p.age + 1 : ℕ) : ℚ) := by push_cast; exact h
  constructor
  · constructor
    · simp only [particleOfIndex, drawParticle]
      exact (uniformR_bounds M 80 300 _ (by norm_num)).1
    · simp only [particleOfIndex, drawParticle]
      exact (uniformR_bounds M 80 300 _ (by norm_num)).2
  · simp only [updateParticle]
    rw [if_pos hc]
    exact ⟨(uniformR_bounds M 50 200 _ (by norm_num)).1,
      (uniformR_bounds M 50 200 _ (by norm_num)).2⟩

/-- Witness for C10 at particle index 1 and the forced-high-age particle. -/
theorem life_range_init_vs_respawn_witness :
    80 ≤ (particleOfIndex defaultModel cfgA 1).life :=
  (life_range_init_vs_respawn defaultModel cfgA 1 pTest 0 (seedRNG 0)
    (by norm_num [pTest])).1.1

/-- C8: an out-of-bounds coordinate (below 0 or above the extent) is
replaced by `(coord + phase * 100) mod extent`; in particular a particle
at `x = width + 5` with `phase = 0` wraps to `5 mod width`. -/
theorem boundary_wrap_formula (phase extent coord : ℚ)
    (h : coord < 0 ∨ extent < coord) :
    wrapCoord phase extent coord = pyMod (coord + phase * 100) extent ∧
    ∀ w : ℚ, wrapCoord 0 w (w + 5) = pyMod 5 w := by
  constructor
  · unfold wrapCoord
    rw [if_pos h]
  · intro w
    have hcond : (w + 5 < 0 ∨ w < w + 5) := Or.inr (by linarith)
    unfold wrapCoord
    rw [if_pos hcond]
    have h0 : w + 5 + 0 * 100 = w + 5 := by ring
    rw [h0]
    by_cases hw : w = 0
    · subst hw
      unfold pyMod
      norm_num
    · unfold pyMod
      have hdiv : (w + 5) / w = 5 / w + 1 := by
        field_simp
        ring
      rw [hdiv, Int.floor_add_one]
      push_cast
      ring

/-- Witness for C8: width 640, particle at 645, phase 0. -/
theorem boundary_wrap_formula_witness :
    wrapCoord 0 640 645 = pyMod (645 + 0 * 100) 640 :=
  (boundary_wrap_formula 0 640 645 (Or.inr (by norm_num))).1

/-- The distortion-center loop builds exactly the requested number of
centers. -/
lemma initDCenterAux_length (M : Model) (cfg : Config) :
    ∀ n s, ((initDCenterAux M cfg n s).1).length = n := by
  intro n
  induction n with
  | zero => intro s; simp [initDCenterAux]
  | succ m ih => intro s; simp [initDCenterAux, ih]

/-- Every built distortion center's strength is `uniform(0.5, 1.5)` times
`distortion_strength`. -/
lemma initDCenterAux_strength (M : Model) (cfg : Config) :
    ∀ n s, ∀ c ∈ (initDCenterAux M cfg n s).1,
      ∃ q, 0 ≤ q ∧ q < 1 ∧ c.strength = (1/2 + q) * distortionStrength cfg := by
  intro n
  induction n with
  | zero => intro s c hc; simp [initDCenterAux] at hc
  | succ m ih =>
    intro s c hc
    simp only [initDCenterAux, List.mem_cons] at hc
    rcases hc with hc | hc
    · subst hc
      refine ⟨M.u s.sd (s.ix + 1 + 1), M.u_nonneg _ _, M.u_lt_one _ _, ?_⟩
      simp only [drawDCenter, uniformR, randomUnit]
      ring
    · exact ih _ c hc

/-- C9: `distortion_strength` is not an independent input: it is computed
at construction as `entropy * resonance * 0.3`, and it is what the blend
factor, the sampling step, and the distortion-center construction (count
and per-center strengths) are computed from. -/
theorem distortion_strength_derived (cfg : Config) :
    distortionStrength cfg = cfg.entropy * cfg.resonance * (3/10) ∧
    blendFactor cfg = min 1 (distortionStrength cfg * 2) ∧
    distortStep cfg = max 1 (pyInt (4 - distortionStrength cfg * 8)) ∧
    (∀ (M : Model) (s : RNGState), ((initDistortion M cfg s).1).length =
      if distortionStrength cfg < 1/10 then 0 else distortionCenterCount cfg) ∧
    (∀ (M : Model) (s : RNGState), ∀ c ∈ (initDistortion M cfg s).1,
      ∃ q, 0 ≤ q ∧ q < 1 ∧ c.strength = (1/2 + q) * distortionStrength cfg) := by
  refine ⟨rfl, rfl, rfl, ?_, ?_⟩
  · intro M s
    unfold initDistortion
    split
    · simp
    · simp [initDCenterAux_length]
  · intro M s c hc
    unfold initDistortion at hc
    split at hc
    · simp at hc
    · exact initDCenterAux_strength M cfg _ s c hc

/-- Witness for C9 at the end-to-end configuration. -/
theorem distortion_strength_derived_witness :
    distortionStrength cfgA = cfgA.entropy * cfgA.resonance * (3/10) :=
  (distortion_strength_derived cfgA).1

attribute [ext] RGB8 Canvas

/-- Rounding an exact integer value is the identity. -/
lemma cvRound_natCast (n : ℕ) : cvRound ((n : ℚ)) = (n : ℤ) := by
  unfold cvRound
  apply Int.floor_eq_iff.mpr
  constructor
  · push_cast
    linarith
  · push_cast
    linarith

/-- Saturating an already-in-range channel value is the identity. -/
lemma sat8_val (a : Fin 256) : sat8 ((a.val : ℤ)) = a := by
  unfold sat8
  apply Fin.ext
  have := a.isLt
  simp only
  omega

/-- `cv2.addWeighted` with weights 0 and 1 returns the second image's
channel unchanged. -/
lemma blendChan_zero_one (a b : Fin 256) : blendChan 0 a 1 b 0 = b := by
  unfold blendChan
  have h1 : (0 : ℚ) * (a.val : ℚ) + 1 * (b.val : ℚ) + 0 = (b.val : ℚ) := by ring
  rw [h1, cvRound_natCast, sat8_val]

/-- `cv2.addWeighted(c, 0, d, 1, 0) = d` for same-shaped images. -/
lemma addWeighted_zero_one (c d : Canvas) (hw : d.width = c.width)
    (hh : d.height = c.height) : addWeighted c 0 d 1 0 = d := by
  apply Canvas.ext
  · exact hw.symm
  · exact hh.symm
  · funext y x
    apply RGB8.ext
    · exact blendChan_zero_one _ _
    · exact blendChan_zero_one _ _
    · exact blendChan_zero_one _ _

/-- C5: the blend factor is `min(1, distortionStrength * 2)` and for
`distortionStrength >= 0.5` it clamps to exactly 1, so the emitted frame
is exactly the resampled frame, with no contribution from the original
composite. -/
theorem distortion_blend_clamp (M : Model) (cfg : Config) (centers : List DCenter)
    (canvas : Canvas) (frame : ℕ) (h : 1/2 ≤ distortionStrength cfg) :
    blendFactor cfg = min 1 (distortionStrength cfg * 2) ∧
    blendFactor cfg = 1 ∧
    applyRealityDistortion M cfg centers canvas frame =
      distortedCanvas M cfg centers canvas frame := by
  have hbf : blendFactor cfg = 1 := by
    unfold blendFactor
    apply min_eq_left
    linarith
  refine ⟨rfl, hbf, ?_⟩
  unfold applyRealityDistortion
  rw [if_neg (by linarith : ¬ distortionStrength cfg < 5/100), hbf]
  have h10 : (1 : ℚ) - 1 = 0 := by norm_num
  rw [h10]
  exact addWeighted_zero_one canvas (distortedCanvas M cfg centers canvas frame) rfl rfl

/-- Witness for C5: entropy 1, resonance 2 give strength 0.6 >= 0.5. -/
theorem distortion_blend_clamp_witness :
    blendFactor cfgB = 1 :=
  (distortion_blend_clamp defaultModel cfgB [] (clearedCanvas defaultModel cfgB 0) 0
    (by norm_num [distortionStrength, cfgB])).2.1

/-- C6: when `distortionStrength < 0.05` the distortion pass returns its
input buffer unchanged, so the frame handed to the video sink is exactly
the pre-distortion composite. -/
theorem distortion_skip_identity (M : Model) (cfg : Config) (centers : List DCenter)
    (canvas : Canvas) (frame : ℕ) (st : GenState)
    (h : distortionStrength cfg < 5/100) :
    applyRealityDistortion M cfg centers canvas frame = canvas ∧
    (drawFrame M cfg st frame).1 = (compositeFrame M cfg st frame).1 := by
  constructor
  · unfold applyRealityDistortion
    rw [if_pos h]
  · simp only [drawFrame]
    unfold applyRealityDistortion
    rw [if_pos h]

/-- Witness for C6: entropy 0 gives strength 0 < 0.05. -/
theorem distortion_skip_identity_witness :
    applyRealityDistortion defaultModel cfgC [] (clearedCanvas defaultModel cfgC 0) 0 =
      clearedCanvas defaultModel cfgC 0 :=
  (distortion_skip_identity defaultModel cfgC [] (clearedCanvas defaultModel cfgC 0) 0
    (initState defaultModel cfgC) (by norm_num [distortionStrength, cfgC])).1

/-- A fold of shape-preserving drawing operations preserves the buffer
shape. -/
lemma foldl_dims {α : Type} (f : Canvas → α → Canvas)
    (hf : ∀ c a, (f c a).width = c.width ∧ (f c a).height = c.height) :
    ∀ (l : List α) (c : Canvas),
      (l.foldl f c).width = c.width ∧ (l.foldl f c).height = c.height := by
  intro l
  induction l with
  | nil => intro c; exact ⟨rfl, rfl⟩
  | cons a t ih =>
    intro c
    have h1 := hf c a
    have h2 := ih (f c a)
    simp only [List.foldl]
    exact ⟨h2.1.trans h1.1, h2.2.trans h1.2⟩

/-- A shape-preserving fold composed with an already-established shape. -/
lemma foldl_dims_trans {α : Type} (f : Canvas → α → Canvas)
    (hf : ∀ c a, (f c a).width = c.width ∧ (f c a).height = c.height)
    {l : List α} {c : Canvas} (w h : ℕ) (hw : c.width = w) (hh : c.height = h) :
    (l.foldl f c).width = w ∧ (l.foldl f c).height = h :=
  ⟨(foldl_dims f hf l c).1.trans hw, (foldl_dims f hf l c).2.trans hh⟩

/-- Rendering one bokeh never changes the buffer shape. -/
lemma drawOneBokeh_dims (M : Model) (cfg : Config) (canvas : Canvas)
    (frame : ℕ) (b : Bokeh) :
    (drawOneBokeh M cfg canvas frame b).1.width = canvas.width ∧
    (drawOneBokeh M cfg canvas frame b).1.height = canvas.height := by
  simp only [drawOneBokeh]
  split
  · apply foldl_dims
    intro c a
    exact ⟨rfl, rfl⟩
  · exact ⟨rfl, rfl⟩

/-- The bokeh layer never changes the buffer shape. -/
lemma drawBokehLayer_dims (M : Model) (cfg : Config) (frame : ℕ) :
    ∀ (bs : List Bokeh) (canvas : Canvas),
      (drawBokehLayer M cfg canvas frame bs).1.width = canvas.width ∧
      (drawBokehLayer M cfg canvas frame bs).1.height = canvas.height := by
  intro bs
  induction bs with
  | nil => intro canvas; exact ⟨rfl, rfl⟩
  | cons b t ih =>
    intro canvas
    have h1 := drawOneBokeh_dims M cfg canvas frame b
    have h2 := ih (drawOneBokeh M cfg canvas frame b).1
    simp only [drawBokehLayer]
    exact ⟨h2.1.trans h1.1, h2.2.trans h1.2⟩

/-- The wave segment pass never changes the buffer shape. -/
lemma drawWaveSegments_dims (M : Model) (cfg : Config) (col glowCol : ℤ × ℤ × ℤ)
    (thickness : ℤ) (canvas : Canvas) (pts : List (ℤ × ℤ)) :
    (drawWaveSegments M cfg col glowCol thickness canvas pts).width = canvas.width ∧
    (drawWaveSegments M cfg col glowCol thickness canvas pts).height = canvas.height := by
  unfold drawWaveSegments
  apply foldl_dims
  intro c pr
  split
  · exact ⟨rfl, rfl⟩
  · exact ⟨rfl, rfl⟩

/-- The wave layer never changes the buffer shape. -/
lemma drawWaves_dims (M : Model) (cfg : Config) (canvas : Canvas) (frame : ℕ) :
    (drawWaves M cfg canvas frame).width = canvas.width ∧
    (drawWaves M cfg canvas frame).height = canvas.height := by
  unfold drawWaves
  apply foldl_dims
  intro c wi
  exact drawWaveSegments_dims M cfg _ _ _ c _

/-- One vortex spiral never changes the buffer shape. -/
lemma drawVortexSpiral_dims (M : Model) (cfg : Config) (v : Vortex)
    (canvas : Canvas) (frame : ℕ) :
    (drawVortexSpiral M cfg v canvas frame).width = canvas.width ∧
    (drawVortexSpiral M cfg v canvas frame).height = canvas.height := by
  unfold drawVortexSpiral
  apply foldl_dims
  intro c si
  dsimp only
  repeat' split
  all_goals exact ⟨rfl, rfl⟩

/-- The vortex layer never changes the buffer shape. -/
lemma drawVortexField_dims (M : Model) (cfg : Config) (centers : List Vortex)
    (canvas : Canvas) (frame : ℕ) :
    (drawVortexField M cfg centers canvas frame).width = canvas.width ∧
    (drawVortexField M cfg centers canvas frame).height = canvas.height := by
  unfold drawVortexField
  split
  · exact ⟨rfl, rfl⟩
  · apply foldl_dims
    intro c v'
    exact drawVortexSpiral_dims M cfg v' c frame

/-- Rendering one particle never changes the buffer shape. -/
lemma drawParticleGfx_dims (M : Model) (cfg : Config) (canvas : Canvas)
    (frame : ℕ) (p : Particle) :
    (drawParticleGfx M cfg canvas frame p).width = canvas.width ∧
    (drawParticleGfx M cfg canvas frame p).height = canvas.height := by
  simp only [drawParticleGfx]
  split
  · apply foldl_dims_trans
    · intro c i
      dsimp only
      split
      · exact ⟨rfl, rfl⟩
      · exact ⟨rfl, rfl⟩
    · split <;> rfl
    · split <;> rfl
  · exact ⟨rfl, rfl⟩

/-- The particle update+draw loop never changes the buffer shape. -/
lemma particlesStage_dims (M : Model) (cfg : Config) (frame : ℕ) :
    ∀ (ps : List Particle) (canvas : Canvas) (s : RNGState),
      (particlesStage M cfg frame canvas ps s).1.width = canvas.width ∧
      (particlesStage M cfg frame canvas ps s).1.height = canvas.height := by
  intro ps
  induction ps with
  | nil => intro canvas s; exact ⟨rfl, rfl⟩
  | cons p t ih =>
    intro canvas s
    have hg := drawParticleGfx_dims M cfg canvas frame (updateParticle M cfg p frame s).1
    have h2 := ih (drawParticleGfx M cfg canvas frame (updateParticle M cfg p frame s).1)
      (updateParticle M cfg p frame s).2
    simp only [particlesStage]
    exact ⟨h2.1.trans hg.1, h2.2.trans hg.2⟩

/-- The pre-distortion composite has the configured frame shape. -/
lemma compositeFrame_dims (M : Model) (cfg : Config) (st : GenState) (frame : ℕ) :
    (compositeFrame M cfg st frame).1.width = cfg.width ∧
    (compositeFrame M cfg st frame).1.height = cfg.height := by
  simp only [compositeFrame]
  have h0 := drawBokehLayer_dims M cfg frame st.bokeh (clearedCanvas M cfg frame)
  have h1 := drawWaves_dims M cfg
    (drawBokehLayer M cfg (clearedCanvas M cfg frame) frame st.bokeh).1 frame
  have h2 := drawVortexField_dims M cfg st.vortexCenters
    (drawWaves M cfg (drawBokehLayer M cfg (clearedCanvas M cfg frame) frame st.bokeh).1 frame) frame
  have h3 := particlesStage_dims M cfg frame st.particles
    (drawVortexField M cfg st.vortexCenters
      (drawWaves M cfg (drawBokehLayer M cfg (clearedCanvas M cfg frame) frame st.bokeh).1 frame) frame)
    st.rng
  exact ⟨h3.1.trans (h2.1.trans (h1.1.trans h0.1)),
    h3.2.trans (h2.2.trans (h1.2.trans h0.2))⟩

/-- The distortion pass never changes the buffer shape. -/
lemma applyRealityDistortion_dims (M : Model) (cfg : Config) (centers : List DCenter)
    (canvas : Canvas) (frame : ℕ) :
    (applyRealityDistortion M cfg centers canvas frame).width = canvas.width ∧
    (applyRealityDistortion M cfg centers canvas frame).height = canvas.height := by
  unfold applyRealityDistortion
  split
  · exact ⟨rfl, rfl⟩
  · exact ⟨rfl, rfl⟩

/-- Every emitted frame has the configured shape. -/
lemma drawFrame_dims (M : Model) (cfg : Config) (st : GenState) (frame : ℕ) :
    (drawFrame M cfg st frame).1.width = cfg.width ∧
    (drawFrame M cfg st frame).1.height = cfg.height := by
  simp only [drawFrame]
  have h1 := applyRealityDistortion_dims M cfg st.distortionCenters
    (compositeFrame M cfg st frame).1 frame
  have h2 := compositeFrame_dims M cfg st frame
  exact ⟨h1.1.trans h2.1, h1.2.trans h2.2⟩

/-- The frame loop emits exactly `fuel` frames. -/
lemma runAux_length (M : Model) (cfg : Config) :
    ∀ fuel st frame, (runAux M cfg fuel st frame).length = fuel := by
  intro fuel
  induction fuel with
  | zero => intro st frame; rfl
  | succ m ih => intro st frame; simp [runAux, ih]

/-- Every frame the loop emits has the configured shape. -/
lemma runAux_dims (M : Model) (cfg : Config) :
    ∀ fuel st frame c, c ∈ runAux M cfg fuel st frame →
      c.width = cfg.width ∧ c.height = cfg.height := by
  intro fuel
  induction fuel with
  | zero => intro st frame c hc; simp [runAux] at hc
  | succ m ih =>
    intro st frame c hc
    simp only [runAux, List.mem_cons] at hc
    rcases hc with hc | hc
    · subst hc
      exact drawFrame_dims M cfg st frame
    · exact ih _ _ c hc

/-- Any run trajectory passes through the canonical states. -/
lemma isRun_state (M : Model) (cfg : Config) (e : ℕ → Canvas) (st : ℕ → GenState)
    (h : IsRun M cfg e st) : ∀ n, st n = stateAt M cfg n := by
  intro n
  induction n with
  | zero => exact h.1
  | succ k ih =>
    have h2 : st (k + 1) = (drawFrame M cfg (st k) k).2 := congrArg Prod.snd (h.2 k)
    rw [h2, ih]
    rfl

/-- C1: two independent runs of the generator over the same configuration
emit identical frames at every index, and that common frame is a pure
function of the configuration and the frame index (the canonical
`frameAt`). -/
theorem run_determinism (M : Model) (cfg : Config) (e1 : ℕ → Canvas)
    (s1 : ℕ → GenState) (e2 : ℕ → Canvas) (s2 : ℕ → GenState)
    (h1 : IsRun M cfg e1 s1) (h2 : IsRun M cfg e2 s2) (n : ℕ) :
    e1 n = e2 n ∧ e1 n = frameAt M cfg n := by
  have k1 : e1 n = frameAt M cfg n := by
    have hfst : e1 n = (drawFrame M cfg (s1 n) n).1 := congrArg Prod.fst (h1.2 n)
    rw [isRun_state M cfg e1 s1 h1 n] at hfst
    exact hfst
  have k2 : e2 n = frameAt M cfg n := by
    have hfst : e2 n = (drawFrame M cfg (s2 n) n).1 := congrArg Prod.fst (h2.2 n)
    rw [isRun_state M cfg e2 s2 h2 n] at hfst
    exact hfst
  exact ⟨k1.trans k2.symm, k1⟩

/-- Witness for C1: the canonical trajectory is a run, and two copies of it
agree at frame 0. -/
theorem run_determinism_witness :
    frameAt defaultModel cfgA 0 = frameAt defaultModel cfgA 0 :=
  (run_determinism defaultModel cfgA (frameAt defaultModel cfgA)
    (stateAt defaultModel cfgA) (frameAt defaultModel cfgA)
    (stateAt defaultModel cfgA) ⟨rfl, fun _ => rfl⟩ ⟨rfl, fun _ => rfl⟩ 0).1

/-- C4: the end-to-end scenario (seeds 12345/0, phase 0, density 500,
resonance 2, entropy 0.5, 640x480, 1 s at 24 fps) emits exactly 24 frames,
each a 640x480 8-bit RGB raster, and frame 0's background tint (the value
the buffer is cleared to before any layer draws) is `(20, 10, 6)`, since
`bg_intensity = 20` at frame 0 with phase 0. -/
theorem end_to_end_scenario (M : Model) :
    (runFrames M cfgA).length = 24 ∧
    ((runFrames M cfgA).all fun c => decide (c.width = 640 ∧ c.height = 480)) = true ∧
    bgIntensity M cfgA 0 = 20 ∧
    bgColorInt M cfgA 0 = (20, 10, 6) := by
  have hbg : bgIntensity M cfgA 0 = 20 := by
    have harg : ((0 : ℕ) : ℚ) * (1/100) + cfgA.phase = 0 := by norm_num [cfgA]
    unfold bgIntensity
    rw [harg, M.msin_zero]
    have h20 : (20 : ℚ) + 10 * 0 = ((20 : ℤ) : ℚ) := by norm_num
    unfold pyInt
    rw [h20, if_pos (by norm_num : (0:ℚ) ≤ ((20 : ℤ) : ℚ)), Int.floor_intCast]
  refine ⟨?_, ?_, hbg, ?_⟩
  · unfold runFrames
    rw [runAux_length]
    rfl
  · rw [List.all_eq_true]
    intro c hc
    have hd := runAux_dims M cfgA (totalFrames cfgA) (initState M cfgA) 0 c hc
    rw [decide_eq_true_eq]
    exact hd
  · unfold bgColorInt
    rw [hbg]
    norm_num

/-- Witness for C4 at the concrete model instance. -/
theorem end_to_end_scenario_witness :
    (runFrames defaultModel cfgA).length = 24 :=
  (end_to_end_scenario defaultModel).1

end Chimerox
